import Mathlib

/-!
Verification of the Boltz-2 prediction pipeline (src/prediction.py and
src/visualization.py) against its specification.

The Python source is shallowly embedded:
* pure string manipulation is modelled over `String` / `List Char`;
* the filesystem and the external subprocess are modelled as explicit
  snapshot inputs (`FS`, `World`);
* fallible operations (JSON parsing, numpy loading) are modelled with
  `Except` / `Option`, where `none` / `.error` stands for a raised and
  subsequently swallowed exception;
* numpy float arrays are modelled over `ℚ` (the code only compares against
  the literal 1.0 and multiplies by 100, which ℚ models exactly; NaN-producing
  degenerate shapes are excluded by positivity hypotheses where values matter).
-/

/-! ### String helpers (models of Python string operations) -/

/-- Model of Python `pat in hay` (substring containment) on character lists. -/
def containsSub (pat : List Char) : List Char → Bool
  | [] => pat.isEmpty
  | c :: t => pat.isPrefixOf (c :: t) || containsSub pat t

/-- Model of Python `pat in hay` for strings. -/
def strContains (hay pat : String) : Bool := containsSub pat.data hay.data

/-- Newline character. -/
def nlChar : Char := Char.ofNat 10

/-- Newline as a one-character string. -/
def nl : String := String.mk [nlChar]

/-- Single-quote character as a one-character string. -/
def apos : String := String.mk [Char.ofNat 39]

/-- Helper for `splitLines`: accumulates the current line (reversed). -/
def splitNlAux (acc : List Char) : List Char → List (List Char)
  | [] => [acc.reverse]
  | c :: t => if c == nlChar then acc.reverse :: splitNlAux [] t else splitNlAux (c :: acc) t

/-- Model of Python `s.split("\n")`. -/
def splitLines (s : String) : List String := (splitNlAux [] s.data).map String.mk

/-- Model of Python `"\n".join(l)`. -/
def joinN : List String → String
  | [] => ("")
  | [x] => x
  | x :: y :: t => x ++ nl ++ joinN (y :: t)

/-- Model of Python `" ".join(l)`. -/
def joinSpace : List String → String
  | [] => ("")
  | [x] => x
  | x :: y :: t => x ++ (" ") ++ joinSpace (y :: t)

/-- Model of Python `l[-n:]` for lists. -/
def lastN (n : Nat) (l : List String) : List String := l.drop (l.length - n)

/-- Model of Python falsiness of `line.strip()`: the line is entirely whitespace. -/
def isBlank (s : String) : Bool := s.data.all (fun c => c.isWhitespace)

/-! ### `_build_command` (src/prediction.py lines 133-148) -/

/-- Base flags of the `boltz predict` invocation, before any length-dependent
override (src/prediction.py lines 136-143). -/
def baseCommand (yamlPath outputDir : String) (samplingSteps : Nat) : List String :=
  [("boltz"), ("predict"), yamlPath,
   ("--out_dir"), outputDir,
   ("--sampling_steps"), toString samplingSteps,
   ("--accelerator"), ("gpu"),
   ("--override"),
   ("--use_msa_server")]

/-- Model of `_build_command` (src/prediction.py lines 133-148): appends the
adaptive recycling/diffusion overrides according to the sequence length. -/
def buildCommand (yamlPath outputDir : String) (samplingSteps seqLen : Nat) : List String :=
  let cmd := baseCommand yamlPath outputDir samplingSteps
  if seqLen > 1000 then cmd ++ [("--recycling_steps"), ("1"), ("--diffusion_samples"), ("1")]
  else if seqLen > 500 then cmd ++ [("--recycling_steps"), ("2"), ("--diffusion_samples"), ("1")]
  else cmd

/-! ### `_find_predictions_dir` (src/prediction.py lines 151-161)

The filesystem is modelled as a snapshot: `matches` is the result of
`glob.glob(os.path.join(output_dir, "boltz_results_*"))` (full paths) paired
with each directory's modification time, and `isDir` models `os.path.isdir`. -/

/-- Filesystem snapshot seen by the output locator. -/
structure FS where
  globMatches : List (String × Nat)
  isDir : String → Bool

/-- Model of `os.path.join` for two components. -/
def pjoin (a b : String) : String := a ++ ("/") ++ b

/-- Sort key of `sorted(..., key=os.path.getmtime, reverse=True)`:
`a` precedes `b` when `b`'s mtime is at most `a`'s. -/
def mtimeGe (a b : String × Nat) : Prop := b.2 ≤ a.2

instance : DecidableRel mtimeGe := fun a b => inferInstanceAs (Decidable (b.2 ≤ a.2))

instance : IsTotal (String × Nat) mtimeGe := ⟨fun a b => Nat.le_total b.2 a.2⟩

instance : IsTrans (String × Nat) mtimeGe := ⟨fun _ _ _ h1 h2 => Nat.le_trans h2 h1⟩

/-- Model of `sorted(glob.glob(...), key=os.path.getmtime, reverse=True)`:
a stable sort by modification time, most recent first. -/
def sortByMtimeDesc (l : List (String × Nat)) : List (String × Nat) :=
  List.insertionSort mtimeGe l

/-- The trailing fallback of `_find_predictions_dir`: the direct
`<output_dir>/predictions` folder, or `None`. -/
def fallbackPredictions (fs : FS) (outputDir : String) : Option String :=
  if fs.isDir (pjoin outputDir ("predictions")) then some (pjoin outputDir ("predictions"))
  else none

/-- Model of `_find_predictions_dir` (src/prediction.py lines 151-161): only the
most recently modified `boltz_results_*` match is probed for a `predictions`
subfolder; otherwise the direct fallback is used. -/
def findPredictionsDir (fs : FS) (outputDir : String) : Option String :=
  match sortByMtimeDesc fs.globMatches with
  | [] => fallbackPredictions fs outputDir
  | d :: _ =>
    if fs.isDir (pjoin d.1 ("predictions")) then some (pjoin d.1 ("predictions"))
    else fallbackPredictions fs outputDir

/-- SPEC-SIDE definition, following the words of claim C4 (not the source):
select the most recent match whose subdirectory structure contains a
`predictions` folder, falling back to the direct subfolder otherwise.
Used only to exhibit the divergence between claim C4 and the code. -/
def specFindPredictionsDir (fs : FS) (outputDir : String) : Option String :=
  match (sortByMtimeDesc fs.globMatches).find? (fun d => fs.isDir (pjoin d.1 ("predictions"))) with
  | some d => some (pjoin d.1 ("predictions"))
  | none => fallbackPredictions fs outputDir

/-! ### `_collect_metrics` (src/prediction.py lines 164-184)

A JSON document is an association list from source keys to (rational-valued)
metric values; a file that failed to open or parse is an `Except.error`
(skipped with a warning by the code). The metrics dictionary is modelled as a
function `String → Option ℚ`. -/

/-- A parsed JSON result document. -/
abbrev Doc := List (String × ℚ)

/-- The fixed source-key → canonical-key table of `_collect_metrics`,
in Python dict insertion (= iteration) order. -/
def metricKeys : List (String × String) :=
  [(("confidence"), ("confidence")),
   (("plddt"), ("plddt")),
   (("ptm"), ("ptm")),
   (("affinity_pred_value"), ("affinity")),
   (("affinity"), ("affinity")),
   (("affinity_probability_binary"), ("binding_probability"))]

/-- The empty metrics dictionary. -/
def emptyMetrics : String → Option ℚ := fun _ => none

/-- Model of `metrics[dst_key] = v`. -/
def updateMetrics (m : String → Option ℚ) (k : String) (v : ℚ) : String → Option ℚ :=
  fun k2 => if k2 = k then some v else m k2

/-- One iteration of the inner loop of `_collect_metrics`:
`if src_key in data and dst_key not in metrics: metrics[dst_key] = data[src_key]`. -/
def stepKey (d : Doc) (m : String → Option ℚ) (p : String × String) : String → Option ℚ :=
  match d.lookup p.1 with
  | some v =>
    match m p.2 with
    | none => updateMetrics m p.2 v
    | some _ => m
  | none => m

/-- Processing of a single successfully parsed document by `_collect_metrics`. -/
def processDoc (m : String → Option ℚ) (d : Doc) : String → Option ℚ :=
  metricKeys.foldl (stepKey d) m

/-- One iteration of the outer loop of `_collect_metrics`: a document that
fails to parse is skipped. -/
def stepDoc (m : String → Option ℚ) (e : Except Unit Doc) : String → Option ℚ :=
  match e with
  | .ok d => processDoc m d
  | .error _ => m

/-- Model of `_collect_metrics` (src/prediction.py lines 164-184). -/
def collectMetrics (docs : List (Except Unit Doc)) : String → Option ℚ :=
  docs.foldl stepDoc emptyMetrics

/-- The value a single document would contribute for canonical key `dst`:
the value of the first source key (in `metricKeys` order) mapping to `dst`
that is present in the document. -/
def extractFrom (dst : String) (d : Doc) : List (String × String) → Option ℚ
  | [] => none
  | p :: rest =>
    if p.2 = dst then
      match d.lookup p.1 with
      | some v => some v
      | none => extractFrom dst d rest
    else extractFrom dst d rest

/-- The contribution of a (possibly unparsable) document for canonical key `dst`. -/
def docVal (dst : String) (e : Except Unit Doc) : Option ℚ :=
  match e with
  | .ok d => extractFrom dst d metricKeys
  | .error _ => none

/-- Left-biased choice on optional metric values. -/
def oOr : Option ℚ → Option ℚ → Option ℚ
  | some v, _ => some v
  | none, y => y

/-! ### `_extract_error` (src/prediction.py lines 187-214) -/

/-- The out-of-memory signature check (first pattern of `_extract_error`). -/
def oomCheck (output : String) : Bool :=
  strContains output ("CUDA out of memory") || strContains output ("OutOfMemoryError")

/-- The out-of-memory message, naming the sequence length. -/
def oomMsg (seqLen : Nat) : String :=
  ("GPU out of memory. Sequence (") ++ toString seqLen ++
    (" aa) is too long for this GPU. Try shorter or use a bigger GPU.")

/-- Quote characters for the `KeyError` regular expression. -/
def isQuoteCh (c : Char) : Bool := c == Char.ofNat 39 || c == Char.ofNat 34

/-- Attempted match of the pattern `KeyError: ['\x22]?([^'\x22]+)['\x22]?` at the
current position, returning the capture group: after the literal `KeyError: `,
a greedy optional quote, then a maximal non-empty run of non-quote characters
(backtracking over the optional quote exactly as the regex engine does). -/
def keyMatchAt (cs : List Char) : Option (List Char) :=
  if (("KeyError: ").data).isPrefixOf cs then
    match cs.drop (("KeyError: ").data.length) with
    | [] => none
    | c :: rest2 =>
      if isQuoteCh c then
        (let run := rest2.takeWhile (fun d => !(isQuoteCh d))
         if run.isEmpty then none else some run)
      else
        (let run := (c :: rest2).takeWhile (fun d => !(isQuoteCh d))
         if run.isEmpty then none else some run)
  else none

/-- Model of `re.search` for the `KeyError` pattern: leftmost match wins. -/
def keySearch : List Char → Option (List Char)
  | [] => none
  | c :: t =>
    match keyMatchAt (c :: t) with
    | some r => some r
    | none => keySearch t

/-- Model of `m.group(1) if m else "unknown"` for the `KeyError` pattern. -/
def keyOf (output : String) : String :=
  match keySearch output.data with
  | some r => String.mk r
  | none => ("unknown")

/-- The `KeyError` diagnostic message, naming the offending key. -/
def keyErrMsg (output : String) : String :=
  ("YAML parsing error: KeyError ") ++ apos ++ keyOf output ++ apos ++
    (" — chain ID format may be wrong.")

/-- Progress-bar / warning noise filtered out by the last-resort fallback. -/
def progressNoise (l : String) : Bool :=
  strContains l ("%|") || strContains l ("it/s") || strContains l ("━") ||
    strContains l ("warnings.warn")

/-- The non-blank, non-progress-bar lines of the output
(`clean` in `_extract_error`). -/
def cleanLines (output : String) : List String :=
  (splitLines output).filter (fun l => !(isBlank l) && !(progressNoise l))

/-- Model of `_extract_error` (src/prediction.py lines 187-214): ordered
pattern checks, first match wins. -/
def extractError (output : String) (seqLen : Nat) (logPath : String) : String :=
  if oomCheck output then oomMsg seqLen
  else if strContains output ("No such file or directory") then
    ("Input file error — check your sequence format.")
  else if strContains output ("KeyError") then keyErrMsg output
  else
    let lines := splitLines output
    match lines.findIdx? (fun l => strContains l ("Traceback")) with
    | some i =>
      ("Prediction failed:") ++ nl ++ joinN (lastN 20 ((lines.drop i).filter (fun l => !(isBlank l))))
    | none =>
      let errs := lines.filter (fun l => strContains l ("Error:") || strContains l ("Exception:"))
      if errs = [] then
        let msg := joinN (lastN 15 (cleanLines output))
        if msg = ("") then ("Unknown error — see ") ++ logPath else msg
      else joinN (lastN 5 errs)

/-! ### `_squeeze_array` (src/visualization.py lines 216-225)

Numpy arrays of dimension 1-3 are modelled as nested rational lists. An
`Option` result models exceptions raised inside `_squeeze_array` and caught by
its callers' `except` blocks (`arr[0]` on an empty first axis, `arr.max()` on
an empty array). Means over an empty axis — NaN in numpy — are modelled as 0;
the value-level theorems therefore assume positive axis lengths. -/

/-- A rational model of a 1-, 2- or 3-dimensional numpy array. -/
inductive NArr where
  | a1 : List ℚ → NArr
  | a2 : List (List ℚ) → NArr
  | a3 : List (List (List ℚ)) → NArr

/-- Model of `arr.max()` on a non-empty array (the empty case, where numpy
raises, is handled by `squeezeScale` returning `none`). -/
def amax : List ℚ → ℚ
  | [] => 0
  | x :: xs => xs.foldl max x

/-- Model of `arr.mean()` along a concrete list of entries. -/
def meanQ (l : List ℚ) : ℚ := l.sum / (l.length : ℚ)

/-- Model of `arr.shape[-1]` of a 2-D array (the common row length). -/
def rowLen (mat : List (List ℚ)) : Nat := (mat.head?.getD []).length

/-- Model of `arr.mean(axis=-1)` of a 2-D array: one mean per row. -/
def rowMeans (mat : List (List ℚ)) : List ℚ := mat.map meanQ

/-- Model of `arr.mean(axis=0)` of a rectangular 2-D array: one mean per column. -/
def colMeans (mat : List (List ℚ)) : List ℚ :=
  (List.range (rowLen mat)).map (fun j => meanQ (mat.map (fun r => r.getD j 0)))

/-- The 2-D branch of `_squeeze_array`:
`arr.mean(axis=-1) if arr.shape[-1] < arr.shape[0] else arr.mean(axis=0)`. -/
def squeezeCollapse (mat : List (List ℚ)) : List ℚ :=
  if rowLen mat < mat.length then rowMeans mat else colMeans mat

/-- The final stage of `_squeeze_array`: flatten (identity on 1-D data) and
scale by 100 when `arr.max() <= 1.0`; `none` models the `ValueError` numpy
raises when taking the max of an empty array. -/
def squeezeScale (l : List ℚ) : Option (List ℚ) :=
  if l = [] then none
  else if amax l ≤ 1 then some (l.map (fun x => x * 100)) else some l

/-- Model of `_squeeze_array` (src/visualization.py lines 216-225). -/
def squeezeArray : NArr → Option (List ℚ)
  | .a1 l => squeezeScale l
  | .a2 mat => squeezeScale (squeezeCollapse mat)
  | .a3 [] => none
  | .a3 (mat :: _) => squeezeScale (squeezeCollapse mat)

/-! ### `_load_npz` and `load_plddt` (src/visualization.py lines 228-299)

`np.load` of an npz file is modelled as an association list of named arrays in
`data.files` order, or `Except.error` when loading raises. A `cif` source is
modelled by the value `extract_plddt_from_cif` returns (`none` covers a missing
path, a parse exception, and an empty atom table — the function catches its own
exceptions and returns `None` in all those cases). A JSON source is an
association list from keys to rational arrays, or `Except.error` when
`json.load` raises. -/

/-- Contents of an npz file as seen through `np.load`. -/
abbrev NpzSrc := Except Unit (List (String × NArr))

/-- Contents of a confidence JSON document. -/
abbrev JsonSrc := Except Unit (List (String × List ℚ))

/-- The named-key priority list used for per-residue npz loading. -/
def npzKeys : List String := [("plddt"), ("predicted_lddt"), ("confidence"), ("data")]

/-- The key priority list of the JSON branch of `load_plddt`. -/
def jsonKeys : List String := [("plddt"), ("atom_plddt"), ("confidence"), ("predicted_lddt")]

/-- First named array among `keys` present in the file
(`for k in keys: if k in data.files: ...`). -/
def firstKeyArr (files : List (String × NArr)) : List String → Option NArr
  | [] => none
  | k :: rest =>
    match files.lookup k with
    | some a => some a
    | none => firstKeyArr files rest

/-- The array `_load_npz` selects from the file: one of the named keys in
priority order, else the first array in the file (`data[data.files[0]]`),
`none` when the file holds no array at all (the `IndexError` case). -/
def chosenArr (files : List (String × NArr)) (keys : List String) : Option NArr :=
  match firstKeyArr files keys with
  | some a => some a
  | none =>
    match files with
    | [] => none
    | (_, a) :: _ => some a

/-- Model of `_load_npz` (src/visualization.py lines 228-236): squeeze the
selected array; any exception (load failure, empty file, empty array inside
`_squeeze_array`) yields `None`. -/
def loadNpz (src : NpzSrc) (keys : List String) : Option (List ℚ) :=
  match src with
  | .error _ => none
  | .ok files =>
    match chosenArr files keys with
    | some a => squeezeArray a
    | none => none

/-- First key of `jsonKeys` present in the JSON document
(`for k in ("plddt", "atom_plddt", "confidence", "predicted_lddt")`). -/
def firstJsonKey (data : List (String × List ℚ)) : List String → Option (List ℚ)
  | [] => none
  | k :: rest =>
    match data.lookup k with
    | some a => some a
    | none => firstJsonKey data rest

/-- The JSON branch of `load_plddt` (src/visualization.py lines 289-298):
look up the priority keys, scale 0-1 data by 100; a parse exception or an
empty array (whose `max()` raises) is swallowed, yielding `None`. -/
def jsonStep (jsonSrc : Option JsonSrc) : Option (List ℚ) :=
  match jsonSrc with
  | none => none
  | some (.error _) => none
  | some (.ok data) =>
    match firstJsonKey data jsonKeys with
    | none => none
    | some arr =>
      if arr = [] then none
      else if amax arr ≤ 1 then some (arr.map (fun x => x * 100)) else some arr

/-- The npz-then-JSON tail of `load_plddt`, reached when the CIF source
yielded nothing. -/
def afterCif (npzSrc : Option NpzSrc) (jsonSrc : Option JsonSrc) : Option (List ℚ) :=
  match npzSrc with
  | some s =>
    (match loadNpz s npzKeys with
     | some a => some a
     | none => jsonStep jsonSrc)
  | none => jsonStep jsonSrc

/-- Model of `load_plddt` (src/visualization.py lines 277-299). `cifRes` is the
result of `extract_plddt_from_cif` gated by `cif_path and os.path.exists(...)`
(`none` when the path is absent or extraction returned `None`); `npzSrc` and
`jsonSrc` are `none` when the corresponding path is absent. The function is
total: no source can raise to the caller. -/
def loadPlddt (cifRes : Option (List ℚ)) (npzSrc : Option NpzSrc)
    (jsonSrc : Option JsonSrc) : Option (List ℚ) :=
  match cifRes with
  | some a => if a.length ≠ 0 then some a else afterCif npzSrc jsonSrc
  | none => afterCif npzSrc jsonSrc

/-! ### `run_prediction` (src/prediction.py lines 217-256)

The outcome of `subprocess.run` is an explicit input: normal completion with a
return code and captured streams, `subprocess.TimeoutExpired`,
`FileNotFoundError`, or any other exception (with its description). The
filesystem state after the run is a `World` snapshot: the locator's view plus
the recursive `*.cif` / `*.pdb` / `*.json` globs under a predictions folder
(json files carry their parse results). The second component of the result
records the content of `boltz_log.txt` when the write at line 235 is reached,
and `none` otherwise. -/

/-- Outcome of the `subprocess.run` call. -/
inductive ProcOutcome where
  | completed (returncode : Int) (stdout stderr : String)
  | timedOut
  | notFound
  | failed (msg : String)

/-- Snapshot of the process outcome and the working directory contents. -/
structure World where
  outcome : ProcOutcome
  fs : FS
  cifs : String → List String
  pdbs : String → List String
  jsons : String → List (Except Unit Doc)

/-- Result variant of `run_prediction`: `(success, structure_path_or_error,
metrics, raw_log)` collapsed into a tagged value. -/
inductive RunResult where
  | success (structurePath : String) (metrics : String → Option ℚ) (rawLog : String)
  | failure (message : String) (rawLog : String)

/-- Whether a run result is the success variant. -/
def RunResult.isSuccess : RunResult → Bool
  | .success _ _ _ => true
  | .failure _ _ => false

/-- The message component of a failure result. -/
def RunResult.msg : RunResult → String
  | .success _ _ _ => ("")
  | .failure m _ => m

/-- The initial raw log: `f"Command: {' '.join(cmd)}\n\n"`. -/
def rawLogPrefix (yamlPath outputDir : String) (samplingSteps seqLen : Nat) : String :=
  ("Command: ") ++ joinSpace (buildCommand yamlPath outputDir samplingSteps seqLen) ++ nl ++ nl

/-- The full raw log written after a completed run: command line, return code,
captured stdout and stderr (src/prediction.py lines 232-234). -/
def fullRawLog (yamlPath outputDir : String) (samplingSteps seqLen : Nat)
    (rc : Int) (stdout stderr : String) : String :=
  rawLogPrefix yamlPath outputDir samplingSteps seqLen ++
    ("Return code: ") ++ toString rc ++ nl ++ nl ++
    ("=== STDOUT ===") ++ nl ++ (if stdout = ("") then ("(empty)") else stdout) ++ nl ++ nl ++
    ("=== STDERR ===") ++ nl ++ (if stderr = ("") then ("(empty)") else stderr)

/-- The message of the `FileNotFoundError` branch. -/
def notFoundMsg : String :=
  ("Boltz-2 not found. Ensure ") ++ apos ++ ("boltz") ++ apos ++
    (" is installed and on PATH.")

/-- The structure files, pdb files and JSON documents discovered under the
located predictions directory (all empty when no directory was located). -/
def locatedFiles (w : World) (outputDir : String) :
    List String × List String × List (Except Unit Doc) :=
  match findPredictionsDir w.fs outputDir with
  | some p => (w.cifs p, w.pdbs p, w.jsons p)
  | none => ([], [], [])

/-- The discovered structure file: `(cif or pdb or [None])[0]`
(cif preferred, then pdb). -/
def structureOf (w : World) (outputDir : String) : Option String :=
  match (locatedFiles w outputDir).1.head? with
  | some c => some c
  | none => (locatedFiles w outputDir).2.1.head?

/-- Model of `run_prediction` (src/prediction.py lines 217-256). The first
component is the returned result; the second is the content of the
`boltz_log.txt` file in the working directory if the run wrote it
(`none` when the exception handlers fired before the write at line 235). -/
def runPrediction (w : World) (yamlPath outputDir : String)
    (samplingSteps seqLen : Nat) : RunResult × Option String :=
  let logPath := pjoin outputDir ("boltz_log.txt")
  let pre := rawLogPrefix yamlPath outputDir samplingSteps seqLen
  match w.outcome with
  | .timedOut => (RunResult.failure ("Prediction timed out (>30 min).") pre, none)
  | .notFound => (RunResult.failure notFoundMsg (""), none)
  | .failed m => (RunResult.failure (("Error running Boltz-2: ") ++ m) pre, none)
  | .completed rc so se =>
    let raw := fullRawLog yamlPath outputDir samplingSteps seqLen rc so se
    match structureOf w outputDir with
    | some s => (RunResult.success s (collectMetrics (locatedFiles w outputDir).2.2) raw, some raw)
    | none =>
      (RunResult.failure (extractError (if se = ("") then so else se) seqLen logPath) raw,
       some raw)

/-! ### Supporting lemmas for `_collect_metrics` -/

lemma oOr_none_right (x : Option ℚ) : oOr x none = x := by cases x <;> rfl

lemma oOr_assoc (a b c : Option ℚ) : oOr (oOr a b) c = oOr a (oOr b c) := by
  cases a <;> cases b <;> rfl

lemma stepKey_at_ne (d : Doc) (m : String → Option ℚ) (p : String × String)
    (dst : String) (hp : p.2 ≠ dst) : stepKey d m p dst = m dst := by
  unfold stepKey
  cases d.lookup p.1 with
  | none => rfl
  | some v =>
    cases m p.2 with
    | some _ => rfl
    | none =>
      simp only [updateMetrics]
      exact if_neg (fun h => hp h.symm)

lemma foldKeys_eq (d : Doc) (dst : String) :
    ∀ (ks : List (String × String)) (m : String → Option ℚ),
      (List.foldl (stepKey d) m ks) dst = oOr (m dst) (extractFrom dst d ks) := by
  intro ks
  induction ks with
  | nil => intro m; simp [extractFrom, oOr_none_right]
  | cons p ks ih =>
    intro m
    rw [List.foldl_cons, ih]
    by_cases hp : p.2 = dst
    · subst hp
      cases hl : d.lookup p.1 with
      | none =>
        have h1 : stepKey d m p = m := by unfold stepKey; rw [hl]
        have h2 : extractFrom p.2 d (p :: ks) = extractFrom p.2 d ks := by
          simp only [extractFrom, if_true]
          rw [hl]
        rw [h1, h2]
      | some v =>
        have h2 : extractFrom p.2 d (p :: ks) = some v := by
          simp only [extractFrom, if_true]
          rw [hl]
        cases hm : m p.2 with
        | some w =>
          have h1 : stepKey d m p = m := by unfold stepKey; rw [hl, hm]
          rw [h1, h2, hm]
          rfl
        | none =>
          have h1 : stepKey d m p p.2 = some v := by
            unfold stepKey
            rw [hl, hm]
            simp [updateMetrics]
          rw [h1, h2]
          rfl
    · have h1 : stepKey d m p dst = m dst := stepKey_at_ne d m p dst hp
      have h2 : extractFrom dst d (p :: ks) = extractFrom dst d ks := by
        simp only [extractFrom]
        rw [if_neg hp]
      rw [h1, h2]

lemma foldDocs_eq (dst : String) :
    ∀ (docs : List (Except Unit Doc)) (m : String → Option ℚ),
      (List.foldl stepDoc m docs) dst
        = oOr (m dst) ((docs.filterMap (docVal dst)).head?) := by
  intro docs
  induction docs with
  | nil => intro m; simp [oOr_none_right]
  | cons e docs ih =>
    intro m
    rw [List.foldl_cons, ih]
    cases e with
    | error u =>
      have h1 : stepDoc m (Except.error u) = m := rfl
      have h2 : List.filterMap (docVal dst) (Except.error u :: docs)
          = List.filterMap (docVal dst) docs := by
        rw [List.filterMap_cons]
        rfl
      rw [h1, h2]
    | ok d =>
      have h1 : stepDoc m (Except.ok d) = processDoc m d := rfl
      have h3 : (processDoc m d) dst = oOr (m dst) (extractFrom dst d metricKeys) :=
        foldKeys_eq d dst metricKeys m
      rw [h1, h3, oOr_assoc, List.filterMap_cons]
      cases he : extractFrom dst d metricKeys with
      | none =>
        have hd : docVal dst (Except.ok d) = none := he
        rw [hd]
        rfl
      | some v =>
        have hd : docVal dst (Except.ok d) = some v := he
        rw [hd]
        rfl

lemma collectMetrics_char (docs : List (Except Unit Doc)) (dst : String) :
    collectMetrics docs dst = (docs.filterMap (docVal dst)).head? :=
  foldDocs_eq dst docs emptyMetrics

/-! ### Claim C3 -/

/-- Claim C3: for every sequence length L, the built invocation command carries
the overrides `recycling_steps=1, diffusion_samples=1` exactly when L > 1000,
the overrides `recycling_steps=2, diffusion_samples=1` exactly when
500 < L ≤ 1000, and no override when L ≤ 500 (and then neither override flag
occurs anywhere in the command, provided the caller-supplied paths are not
themselves flag strings). -/
theorem c3_build_command_overrides
    (y o : String) (s L1 L2 L3 : Nat)
    (h1 : 1000 < L1) (h2a : 500 < L2) (h2b : L2 ≤ 1000) (h3 : L3 ≤ 500)
    (hy1 : y ≠ ("--recycling_steps")) (ho1 : o ≠ ("--recycling_steps"))
    (hs1 : toString s ≠ ("--recycling_steps"))
    (hy2 : y ≠ ("--diffusion_samples")) (ho2 : o ≠ ("--diffusion_samples"))
    (hs2 : toString s ≠ ("--diffusion_samples")) :
    buildCommand y o s L1
        = baseCommand y o s ++ [("--recycling_steps"), ("1"), ("--diffusion_samples"), ("1")] ∧
    buildCommand y o s L2
        = baseCommand y o s ++ [("--recycling_steps"), ("2"), ("--diffusion_samples"), ("1")] ∧
    buildCommand y o s L3 = baseCommand y o s ∧
    ("--recycling_steps") ∉ buildCommand y o s L3 ∧
    ("--diffusion_samples") ∉ buildCommand y o s L3 := by
  have e1 : buildCommand y o s L1
      = baseCommand y o s ++ [("--recycling_steps"), ("1"), ("--diffusion_samples"), ("1")] := by
    unfold buildCommand
    rw [if_pos h1]
  have e2 : buildCommand y o s L2
      = baseCommand y o s ++ [("--recycling_steps"), ("2"), ("--diffusion_samples"), ("1")] := by
    unfold buildCommand
    rw [if_neg (by omega), if_pos h2a]
  have e3 : buildCommand y o s L3 = baseCommand y o s := by
    unfold buildCommand
    rw [if_neg (by omega), if_neg (by omega)]
  refine ⟨e1, e2, e3, ?_, ?_⟩
  · rw [e3]
    intro hmem
    simp only [baseCommand, List.mem_cons, List.not_mem_nil, or_false] at hmem
    rcases hmem with h | h | h | h | h | h | h | h | h | h | h
    · exact absurd h (by decide)
    · exact absurd h (by decide)
    · exact hy1 h.symm
    · exact absurd h (by decide)
    · exact ho1 h.symm
    · exact absurd h (by decide)
    · exact hs1 h.symm
    · exact absurd h (by decide)
    · exact absurd h (by decide)
    · exact absurd h (by decide)
    · exact absurd h (by decide)
  · rw [e3]
    intro hmem
    simp only [baseCommand, List.mem_cons, List.not_mem_nil, or_false] at hmem
    rcases hmem with h | h | h | h | h | h | h | h | h | h | h
    · exact absurd h (by decide)
    · exact absurd h (by decide)
    · exact hy2 h.symm
    · exact absurd h (by decide)
    · exact ho2 h.symm
    · exact absurd h (by decide)
    · exact hs2 h.symm
    · exact absurd h (by decide)
    · exact absurd h (by decide)
    · exact absurd h (by decide)
    · exact absurd h (by decide)

/-- Witness for C3 at concrete inputs (lengths 1200, 800 and 300). -/
theorem c3_witness :
    buildCommand ("input.yaml") ("out") 50 1200
        = baseCommand ("input.yaml") ("out") 50
            ++ [("--recycling_steps"), ("1"), ("--diffusion_samples"), ("1")] ∧
    buildCommand ("input.yaml") ("out") 50 800
        = baseCommand ("input.yaml") ("out") 50
            ++ [("--recycling_steps"), ("2"), ("--diffusion_samples"), ("1")] ∧
    buildCommand ("input.yaml") ("out") 50 300 = baseCommand ("input.yaml") ("out") 50 ∧
    ("--recycling_steps") ∉ buildCommand ("input.yaml") ("out") 50 300 ∧
    ("--diffusion_samples") ∉ buildCommand ("input.yaml") ("out") 50 300 :=
  c3_build_command_overrides ("input.yaml") ("out") 50 1200 800 300
    (by decide) (by decide) (by decide) (by decide)
    (by decide) (by decide) (by decide) (by decide) (by decide) (by decide)

/-! ### Claims C5 and C10 -/

/-- Claim C5: the Metric Extractor populates each canonical key at most once,
from the first document in input order that contributes a value for it (so a
later document never overwrites an already-populated key), and the result is
invariant under document reordering for a canonical key derivable from at most
one document. -/
theorem c5_metrics_first_wins
    (docs1 docs2 : List (Except Unit Doc)) (dst : String)
    (hperm : docs1.Perm docs2) :
    collectMetrics docs1 dst = (docs1.filterMap (docVal dst)).head? ∧
    ((docs1.filterMap (docVal dst)).length ≤ 1 →
      collectMetrics docs1 dst = collectMetrics docs2 dst) := by
  refine ⟨collectMetrics_char docs1 dst, ?_⟩
  intro hlen
  rw [collectMetrics_char docs1 dst, collectMetrics_char docs2 dst]
  have hp : (docs1.filterMap (docVal dst)).Perm (docs2.filterMap (docVal dst)) :=
    hperm.filterMap (docVal dst)
  cases h1 : docs1.filterMap (docVal dst) with
  | nil =>
    rw [h1] at hp
    rw [hp.symm.eq_nil]
  | cons a t =>
    rw [h1] at hp hlen
    have ht : t = [] := by
      cases t with
      | nil => rfl
      | cons b t2 => simp at hlen
    subst ht
    rw [List.perm_singleton.mp hp.symm]

/-- A first document for the C5 witness, containing `confidence` and `plddt`. -/
def c5docA : Except Unit Doc := Except.ok [(("confidence"), (5 : ℚ)), (("plddt"), 80)]

/-- A second document for the C5 witness, also containing `confidence`. -/
def c5docB : Except Unit Doc := Except.ok [(("confidence"), (7 : ℚ))]

/-- Witness for C5: with two documents both containing `confidence`, the first
document's value is retained in either order, and the `plddt` key (present in
only one document) is invariant under reordering. -/
theorem c5_witness :
    collectMetrics [c5docA, c5docB] ("confidence") = some ((5 : ℚ)) ∧
    collectMetrics [c5docB, c5docA] ("confidence") = some ((7 : ℚ)) ∧
    collectMetrics [c5docA, c5docB] ("plddt") = collectMetrics [c5docB, c5docA] ("plddt") := by
  have hperm : ([c5docA, c5docB] : List (Except Unit Doc)).Perm [c5docB, c5docA] :=
    List.Perm.swap c5docB c5docA []
  refine ⟨?_, ?_, ?_⟩
  · exact (c5_metrics_first_wins [c5docA, c5docB] [c5docB, c5docA] ("confidence")
      hperm).1.trans (by decide)
  · exact (c5_metrics_first_wins [c5docB, c5docA] [c5docA, c5docB] ("confidence")
      hperm.symm).1.trans (by decide)
  · exact (c5_metrics_first_wins [c5docA, c5docB] [c5docB, c5docA] ("plddt")
      hperm).2 (by decide)

/-- Claim C10: the source-key table is consulted in the fixed order
(confidence, plddt, ptm, affinity_pred_value, affinity,
affinity_probability_binary), so when one document contains both
`affinity_pred_value` and `affinity`, the canonical `affinity` metric takes
the value of `affinity_pred_value`. -/
theorem c10_affinity_pred_value_priority
    (d : Doc) (v w : ℚ)
    (h1 : d.lookup ("affinity_pred_value") = some v)
    (h2 : d.lookup ("affinity") = some w) :
    metricKeys.map Prod.fst
        = [("confidence"), ("plddt"), ("ptm"), ("affinity_pred_value"), ("affinity"),
           ("affinity_probability_binary")] ∧
    collectMetrics [Except.ok d] ("affinity") = some v := by
  refine ⟨rfl, ?_⟩
  rw [collectMetrics_char]
  have hv : docVal ("affinity") (Except.ok d) = some v := by
    show extractFrom ("affinity") d metricKeys = some v
    simp only [metricKeys, extractFrom]
    simp only [show (("confidence") : String) ≠ ("affinity") from by decide,
      show (("plddt") : String) ≠ ("affinity") from by decide,
      show (("ptm") : String) ≠ ("affinity") from by decide, if_false, ite_false]
    simp [h1]
  simp [List.filterMap_cons, hv]

/-! ### Claim C4 -/

/-- Filesystem for the C4 counterexample: two `boltz_results_*` matches with
distinct modification times; only the OLDER one contains a `predictions`
folder; there is no direct `predictions` fallback. -/
def c4fs : FS :=
  { globMatches := [(("out/boltz_results_a"), 1), (("out/boltz_results_b"), 2)],
    isDir := fun p => p == ("out/boltz_results_a/predictions") }

/-- Counterexample to claim C4: when the newest matching directory lacks a
`predictions` folder but an older matching directory has one, the claim (here
rendered by `specFindPredictionsDir`) selects the older directory's
`predictions` folder, but the code returns `none` — it only ever probes the
newest match before falling back. -/
theorem c4_counterexample :
    findPredictionsDir c4fs ("out") = none ∧
    specFindPredictionsDir c4fs ("out") = some ("out/boltz_results_a/predictions") := by
  constructor
  · decide
  · decide

/-- Claim C4 (amended): the locator sorts the pattern matches by modification
time descending and probes ONLY the most recent match for a `predictions`
subfolder; if the newest match lacks one — or there is no match at all — it
falls back to the direct `predictions` subfolder of the working directory
(older matches are never consulted). -/
theorem c4_amended
    (fs1 fs2 : FS) (od1 od2 : String) (d : String × Nat) (rest : List (String × Nat))
    (h1 : sortByMtimeDesc fs1.globMatches = d :: rest)
    (h2 : sortByMtimeDesc fs2.globMatches = []) :
    (∀ e ∈ fs1.globMatches, e.2 ≤ d.2) ∧
    (fs1.isDir (pjoin d.1 ("predictions")) = true →
      findPredictionsDir fs1 od1 = some (pjoin d.1 ("predictions"))) ∧
    (fs1.isDir (pjoin d.1 ("predictions")) = false →
      findPredictionsDir fs1 od1 = fallbackPredictions fs1 od1) ∧
    findPredictionsDir fs2 od2 = fallbackPredictions fs2 od2 := by
  refine ⟨?_, ?_, ?_, ?_⟩
  · intro e he
    have hs : List.Sorted mtimeGe (sortByMtimeDesc fs1.globMatches) :=
      List.sorted_insertionSort mtimeGe fs1.globMatches
    rw [h1] at hs
    have hmem : e ∈ d :: rest := by
      rw [← h1]
      exact ((List.perm_insertionSort mtimeGe fs1.globMatches).mem_iff).mpr he
    rcases List.mem_cons.mp hmem with heq | hmem2
    · rw [heq]
    · exact (List.sorted_cons.mp hs).1 e hmem2
  · intro hdir
    have e : findPredictionsDir fs1 od1
        = if fs1.isDir (pjoin d.1 ("predictions")) = true then some (pjoin d.1 ("predictions"))
          else fallbackPredictions fs1 od1 := by
      unfold findPredictionsDir
      rw [h1]
    rw [e, if_pos hdir]
  · intro hdir
    have e : findPredictionsDir fs1 od1
        = if fs1.isDir (pjoin d.1 ("predictions")) = true then some (pjoin d.1 ("predictions"))
          else fallbackPredictions fs1 od1 := by
      unfold findPredictionsDir
      rw [h1]
    rw [e, if_neg (by rw [hdir]; exact Bool.false_ne_true)]
  · unfold findPredictionsDir
    rw [h2]

/-- Empty filesystem for the C4 witness (no pattern match at all). -/
def c4fsEmpty : FS := { globMatches := [], isDir := fun _ => false }

/-- Witness for C4 (amended) at the concrete filesystems. -/
theorem c4_witness :
    ((("out/boltz_results_a"), 1) : String × Nat).2 ≤ 2 ∧
    findPredictionsDir c4fs ("out") = fallbackPredictions c4fs ("out") ∧
    findPredictionsDir c4fsEmpty ("odir") = fallbackPredictions c4fsEmpty ("odir") := by
  have h := c4_amended c4fs c4fsEmpty ("out") ("odir")
    ((("out/boltz_results_b"), 2)) ([(("out/boltz_results_a"), 1)])
    (by decide) (by decide)
  exact ⟨h.1 ((("out/boltz_results_a"), 1)) (by decide), h.2.2.1 (by decide), h.2.2.2⟩

/-! ### Claims C6 and C9 -/

/-- Claim C6: for every non-empty loaded confidence array, a maximum ≤ 1.0
triggers multiplication of every value by 100, a maximum above 1.0 leaves the
values unscaled, and consequently re-normalizing an already-normalized array
(maximum > 1) is a no-op. -/
theorem c6_squeeze_normalization
    (l1 l2 : List ℚ)
    (h1 : l1 ≠ []) (h1m : amax l1 ≤ 1)
    (h2 : l2 ≠ []) (h2m : 1 < amax l2) :
    squeezeArray (NArr.a1 l1) = some (l1.map (fun x => x * 100)) ∧
    squeezeArray (NArr.a1 l2) = some l2 ∧
    (squeezeArray (NArr.a1 l2)).bind (fun m => squeezeArray (NArr.a1 m))
      = squeezeArray (NArr.a1 l2) := by
  have e1 : squeezeArray (NArr.a1 l1) = some (l1.map (fun x => x * 100)) := by
    show squeezeScale l1 = _
    unfold squeezeScale
    rw [if_neg h1, if_pos h1m]
  have e2 : squeezeArray (NArr.a1 l2) = some l2 := by
    show squeezeScale l2 = _
    unfold squeezeScale
    rw [if_neg h2, if_neg (not_le.mpr h2m)]
  refine ⟨e1, e2, ?_⟩
  rw [e2]
  show squeezeArray (NArr.a1 l2) = some l2
  exact e2

/-- Witness for C6: `[1]` (max ≤ 1) is scaled to `[100]`; `[87]` (max > 1) is
left unscaled, and re-normalizing it is a no-op. -/
theorem c6_witness :
    squeezeArray (NArr.a1 [(1 : ℚ)]) = some [(100 : ℚ)] ∧
    squeezeArray (NArr.a1 [(87 : ℚ)]) = some [(87 : ℚ)] ∧
    (squeezeArray (NArr.a1 [(87 : ℚ)])).bind (fun m => squeezeArray (NArr.a1 m))
      = squeezeArray (NArr.a1 [(87 : ℚ)]) := by
  have h := c6_squeeze_normalization [(1 : ℚ)] [(87 : ℚ)]
    (by decide) (by decide) (by decide) (by decide)
  exact ⟨h.1.trans (by simp), h.2.1, h.2.2⟩

/-- Claim C9: for a rectangular 2-D raw confidence array with unequal axis
lengths, the per-residue collapse averages over the smaller axis: an m×n array
with n < m collapses to the length-m row means, and with m < n to the length-n
column means (and `_squeeze_array` then applies the normalization stage to the
collapsed data). -/
theorem c9_collapse_axis
    (mat1 mat2 : List (List ℚ)) (m1 n1 m2 n2 : Nat)
    (hm1 : mat1.length = m1) (hr1 : ∀ r ∈ mat1, r.length = n1)
    (hpos1 : 0 < m1) (hnpos1 : 0 < n1) (hlt1 : n1 < m1)
    (hm2 : mat2.length = m2) (hr2 : ∀ r ∈ mat2, r.length = n2)
    (hpos2 : 0 < m2) (hnpos2 : 0 < n2) (hlt2 : m2 < n2) :
    (squeezeCollapse mat1 = rowMeans mat1 ∧ (squeezeCollapse mat1).length = m1 ∧
      squeezeArray (NArr.a2 mat1) = squeezeScale (squeezeCollapse mat1)) ∧
    (squeezeCollapse mat2 = colMeans mat2 ∧ (squeezeCollapse mat2).length = n2 ∧
      squeezeArray (NArr.a2 mat2) = squeezeScale (squeezeCollapse mat2)) := by
  have hrl1 : rowLen mat1 = n1 := by
    cases mat1 with
    | nil => simp at hm1; omega
    | cons r t => exact hr1 r (List.mem_cons_self r t)
  have hrl2 : rowLen mat2 = n2 := by
    cases mat2 with
    | nil => simp at hm2; omega
    | cons r t => exact hr2 r (List.mem_cons_self r t)
  constructor
  · have hc : squeezeCollapse mat1 = rowMeans mat1 := by
      unfold squeezeCollapse
      rw [hrl1, hm1, if_pos hlt1]
    refine ⟨hc, ?_, rfl⟩
    rw [hc]
    unfold rowMeans
    rw [List.length_map, hm1]
  · have hc : squeezeCollapse mat2 = colMeans mat2 := by
      unfold squeezeCollapse
      rw [hrl2, hm2, if_neg (by omega)]
    refine ⟨hc, ?_, rfl⟩
    rw [hc]
    unfold colMeans
    rw [List.length_map, List.length_range, hrl2]

/-- Witness for C9: a 3×1 array collapses to its 3 row means, a 1×3 array to
its 3 column means. -/
theorem c9_witness :
    (squeezeCollapse [[(1 : ℚ)], [(2 : ℚ)], [(3 : ℚ)]]
        = rowMeans [[(1 : ℚ)], [(2 : ℚ)], [(3 : ℚ)]] ∧
      (squeezeCollapse [[(1 : ℚ)], [(2 : ℚ)], [(3 : ℚ)]]).length = 3) ∧
    (squeezeCollapse [[(1 : ℚ), 2, 3]] = colMeans [[(1 : ℚ), 2, 3]] ∧
      (squeezeCollapse [[(1 : ℚ), 2, 3]]).length = 3) := by
  have h := c9_collapse_axis [[(1 : ℚ)], [(2 : ℚ)], [(3 : ℚ)]] [[(1 : ℚ), 2, 3]] 3 1 1 3
    (by decide) (by decide) (by decide) (by decide) (by decide)
    (by decide) (by decide) (by decide) (by decide) (by decide)
  exact ⟨⟨h.1.1, h.1.2.1⟩, ⟨h.2.1, h.2.2.1⟩⟩

/-! ### Claim C7 -/

lemma squeezeScale_ne_nil (l b : List ℚ) (h : squeezeScale l = some b) : b ≠ [] := by
  unfold squeezeScale at h
  by_cases hl : l = []
  · rw [if_pos hl] at h
    exact absurd h (by simp)
  · rw [if_neg hl] at h
    by_cases ha : amax l ≤ 1
    · rw [if_pos ha] at h
      injection h with h2
      intro hb
      rw [hb] at h2
      exact hl (List.map_eq_nil_iff.mp h2)
    · rw [if_neg ha] at h
      injection h with h2
      intro hb
      rw [hb] at h2
      exact hl h2

lemma squeezeArray_ne_nil (a : NArr) (b : List ℚ) (h : squeezeArray a = some b) : b ≠ [] := by
  cases a with
  | a1 l => exact squeezeScale_ne_nil l b h
  | a2 m => exact squeezeScale_ne_nil _ b h
  | a3 ms =>
    cases ms with
    | nil => exact absurd h (by simp [squeezeArray])
    | cons m t => exact squeezeScale_ne_nil _ b h

lemma loadNpz_ne_nil (s : NpzSrc) (keys : List String) (b : List ℚ)
    (h : loadNpz s keys = some b) : b ≠ [] := by
  cases s with
  | error u => exact absurd h (by simp [loadNpz])
  | ok files =>
    have h2 : (match chosenArr files keys with
               | some a => squeezeArray a
               | none => (none : Option (List ℚ))) = some b := h
    cases hk : chosenArr files keys with
    | some a =>
      rw [hk] at h2
      exact squeezeArray_ne_nil a b h2
    | none =>
      rw [hk] at h2
      exact absurd h2 (by simp)

lemma jsonStep_ne_nil (js : Option JsonSrc) (b : List ℚ) (h : jsonStep js = some b) :
    b ≠ [] := by
  cases js with
  | none => exact absurd h (by simp [jsonStep])
  | some e =>
    cases e with
    | error u => exact absurd h (by simp [jsonStep])
    | ok data =>
      have h2 : (match firstJsonKey data jsonKeys with
                 | none => none
                 | some arr =>
                   if arr = [] then none
                   else if amax arr ≤ 1 then some (arr.map (fun x => x * 100))
                   else some arr) = some b := h
      cases hk : firstJsonKey data jsonKeys with
      | none =>
        rw [hk] at h2
        exact absurd h2 (by simp)
      | some arr =>
        rw [hk] at h2
        have h3 : squeezeScale arr = some b := h2
        exact squeezeScale_ne_nil arr b h3

/-- Claim C7: `load_plddt` tries CIF metadata, then the npz file, then the
JSON document, in strict priority order, returning the first source that
yields a non-empty result; a failed source (parse exception or missing path,
modelled as `none` / a failing load) is silently skipped, and when every
source is unavailable the result is `None`. (The embedding is a total
function, so no source can raise to the caller.) -/
theorem c7_load_plddt_priority
    (a : List ℚ) (n1 : Option NpzSrc) (j1 : Option JsonSrc)
    (c2 : Option (List ℚ)) (s2 : NpzSrc) (b2 : List ℚ) (j2 : Option JsonSrc)
    (c3 : Option (List ℚ)) (s3 : NpzSrc) (j3 : Option JsonSrc)
    (s4 : JsonSrc) (b4 : List ℚ)
    (ha : a ≠ [])
    (hc2 : c2 = none ∨ c2 = some [])
    (hb2 : loadNpz s2 npzKeys = some b2)
    (hc3 : c3 = none ∨ c3 = some [])
    (hs3 : loadNpz s3 npzKeys = none)
    (hb4 : jsonStep (some s4) = some b4) :
    loadPlddt (some a) n1 j1 = some a ∧
    (loadPlddt c2 (some s2) j2 = some b2 ∧ b2 ≠ []) ∧
    loadPlddt c3 none j3 = jsonStep j3 ∧
    loadPlddt c3 (some s3) j3 = jsonStep j3 ∧
    b4 ≠ [] ∧
    loadPlddt c3 none none = none := by
  have hlen : a.length ≠ 0 := fun h0 => ha (List.length_eq_zero.mp h0)
  have hafter : ∀ (cr : Option (List ℚ)), cr = none ∨ cr = some [] →
      ∀ (ns : Option NpzSrc) (js : Option JsonSrc), loadPlddt cr ns js = afterCif ns js := by
    intro cr hcr ns js
    rcases hcr with h | h <;> rw [h]
    · rfl
    · show (if ([] : List ℚ).length ≠ 0 then some [] else afterCif ns js) = afterCif ns js
      rw [if_neg (by simp)]
  refine ⟨?_, ⟨?_, ?_⟩, ?_, ?_, ?_, ?_⟩
  · show (if a.length ≠ 0 then some a else afterCif n1 j1) = some a
    rw [if_pos hlen]
  · rw [hafter c2 hc2 (some s2) j2]
    show (match loadNpz s2 npzKeys with
          | some r => some r
          | none => jsonStep j2) = some b2
    rw [hb2]
  · exact loadNpz_ne_nil s2 npzKeys b2 hb2
  · rw [hafter c3 hc3 none j3]
    rfl
  · rw [hafter c3 hc3 (some s3) j3]
    show (match loadNpz s3 npzKeys with
          | some r => some r
          | none => jsonStep j3) = jsonStep j3
    rw [hs3]
  · exact jsonStep_ne_nil (some s4) b4 hb4
  · rw [hafter c3 hc3 none none]
    rfl

/-- NPZ source for the C7 witness. -/
def c7npz : NpzSrc := Except.ok [(("plddt"), NArr.a1 [(2 : ℚ), 3])]

/-- JSON source for the C7 witness. -/
def c7json : JsonSrc := Except.ok [(("plddt"), [(2 : ℚ)])]

/-- Witness for C7 at concrete sources: a non-empty CIF result wins over
everything, a successful npz load wins over JSON, a failing or absent npz
falls through to JSON, and all-unavailable yields `none`. -/
theorem c7_witness :
    loadPlddt (some [(50 : ℚ)]) none none = some [(50 : ℚ)] ∧
    loadPlddt none (some c7npz) none = some [(2 : ℚ), 3] ∧
    loadPlddt none none (some c7json) = some [(2 : ℚ)] ∧
    loadPlddt none (some (Except.error ())) (some c7json) = some [(2 : ℚ)] ∧
    loadPlddt none none none = none := by
  have h := c7_load_plddt_priority [(50 : ℚ)] none none
    none c7npz [(2 : ℚ), 3] none
    none (Except.error ()) (some c7json)
    c7json [(2 : ℚ)]
    (by decide) (Or.inl rfl) (by decide) (Or.inl rfl) (by decide) (by decide)
  refine ⟨h.1, h.2.1.1, ?_, ?_, h.2.2.2.2.2⟩
  · exact (h.2.2.1).trans (by decide)
  · exact (h.2.2.2.1).trans (by decide)

/-! ### Claim C8 -/

lemma strData_append (a b : String) : (a ++ b).data = a.data ++ b.data := rfl

lemma not_isBlank_data_ne_nil (s : String) (h : isBlank s = false) : s.data ≠ [] := by
  intro hd
  unfold isBlank at h
  rw [hd] at h
  simp at h

lemma joinN_ne_empty (l : List String) (hl : l ≠ []) (hb : ∀ x ∈ l, isBlank x = false) :
    joinN l ≠ ("") := by
  match l with
  | [] => exact absurd rfl hl
  | [x] =>
    have hx := not_isBlank_data_ne_nil x (hb x (by simp))
    intro he
    have : joinN [x] = x := rfl
    rw [this] at he
    exact hx (congrArg String.data he)
  | x :: y :: t =>
    intro he
    have hdata : (joinN (x :: y :: t)).data = x.data ++ (nl.data ++ (joinN (y :: t)).data) := by
      show ((x ++ nl) ++ joinN (y :: t)).data = _
      rw [strData_append, strData_append, List.append_assoc]
    rw [he] at hdata
    have h2 := hdata.symm
    rw [List.append_eq_nil] at h2
    have h3 := h2.2
    rw [List.append_eq_nil] at h3
    exact absurd h3.1 (by decide)

lemma lastN_ne_nil (n : Nat) (hn : 0 < n) (l : List String) (hl : l ≠ []) :
    lastN n l ≠ [] := by
  intro h
  have h1 := congrArg List.length h
  rw [lastN, List.length_drop] at h1
  simp at h1
  have h2 : l.length ≠ 0 := fun h0 => hl (List.length_eq_zero.mp h0)
  omega

/-- Claim C8: the Error Classifier applies its pattern checks in the fixed
order and returns the first match. An out-of-memory signature yields the
message naming the sequence length (even if later patterns also match); with
no earlier pattern, a `KeyError` signature yields the message naming the
extracted offending key and suggesting a chain-ID format problem; and with no
recognizable pattern, no traceback and no error-marker line, the classifier
falls back to the last 15 non-blank, non-progress-bar lines. -/
theorem c8_extract_error_order
    (out1 out2 out3 lp1 lp2 lp3 : String) (sl1 sl2 sl3 : Nat)
    (h1 : oomCheck out1 = true)
    (h2a : oomCheck out2 = false)
    (h2b : strContains out2 ("No such file or directory") = false)
    (h2c : strContains out2 ("KeyError") = true)
    (h3a : oomCheck out3 = false)
    (h3b : strContains out3 ("No such file or directory") = false)
    (h3c : strContains out3 ("KeyError") = false)
    (h3d : (splitLines out3).findIdx? (fun l => strContains l ("Traceback")) = none)
    (h3e : (splitLines out3).filter
        (fun l => strContains l ("Error:") || strContains l ("Exception:")) = [])
    (h3f : cleanLines out3 ≠ []) :
    extractError out1 sl1 lp1 = oomMsg sl1 ∧
    extractError out2 sl2 lp2 = keyErrMsg out2 ∧
    extractError out3 sl3 lp3 = joinN (lastN 15 (cleanLines out3)) := by
  refine ⟨?_, ?_, ?_⟩
  · unfold extractError
    rw [if_pos h1]
  · unfold extractError
    rw [if_neg (by rw [h2a]; exact Bool.false_ne_true),
        if_neg (by rw [h2b]; exact Bool.false_ne_true), if_pos h2c]
  · have hmsg : joinN (lastN 15 (cleanLines out3)) ≠ ("") := by
      refine joinN_ne_empty _ (lastN_ne_nil 15 (by omega) _ h3f) ?_
      intro x hx
      have hm : x ∈ cleanLines out3 := List.mem_of_mem_drop hx
      unfold cleanLines at hm
      have hp := (List.mem_filter.mp hm).2
      simp at hp
      exact hp.1
    unfold extractError
    rw [if_neg (by rw [h3a]; exact Bool.false_ne_true),
        if_neg (by rw [h3b]; exact Bool.false_ne_true),
        if_neg (by rw [h3c]; exact Bool.false_ne_true)]
    simp only [h3d, h3e]
    rw [if_pos trivial, if_neg hmsg]

/-- C8 witness input containing the out-of-memory signature (and a later
error-marker line, which must not win). -/
def c8out1 : String := "RuntimeError: CUDA out of memory\nError: later line"

/-- C8 witness input containing a `KeyError: ` signature quoting the key
`chain` (and a traceback banner, which is checked only later). -/
def c8out2 : String := "Traceback (most recent call last):\nKeyError: " ++ apos ++ ("chain") ++ apos

/-- C8 witness input with no recognizable pattern: two content lines, a blank
line and a progress-bar line. -/
def c8out3 : String := "line one\n\n 42%|progress\nline two"

/-- Witness for C8 at the three concrete inputs. -/
theorem c8_witness :
    extractError c8out1 123 ("log.txt")
        = ("GPU out of memory. Sequence (123 aa) is too long for this GPU. Try shorter or use a bigger GPU.") ∧
    extractError c8out2 7 ("log.txt")
        = ("YAML parsing error: KeyError ") ++ apos ++ ("chain") ++ apos
            ++ (" — chain ID format may be wrong.") ∧
    extractError c8out3 9 ("log.txt") = ("line one\nline two") := by
  have h := c8_extract_error_order c8out1 c8out2 c8out3 ("log.txt") ("log.txt") ("log.txt")
    123 7 9
    (by decide) (by decide) (by decide) (by decide) (by decide) (by decide) (by decide)
    (by decide) (by decide) (by decide)
  refine ⟨h.1.trans (by decide), h.2.1.trans (by decide), h.2.2.trans (by decide)⟩

/-! ### Claims C1 and C2 -/

/-- World for the C1 counterexample: the process completes with a NON-ZERO
return code, yet a `boltz_results_*` directory with a `predictions` folder
containing a `.cif` structure file exists. -/
def c1World : World :=
  { outcome := ProcOutcome.completed 1 ("") ("boom"),
    fs := { globMatches := [(("out/boltz_results_x"), 5)],
            isDir := fun p => p == ("out/boltz_results_x/predictions") },
    cifs := fun _ => [("out/boltz_results_x/predictions/model.cif")],
    pdbs := fun _ => [],
    jsons := fun _ => [] }

/-- Counterexample to claim C1: the process exits with code 1 (so the claim
demands `Failure`), but `run_prediction` returns `Success` — the return code
is never consulted; only structure-file discovery decides the outcome. -/
theorem c1_counterexample :
    (runPrediction c1World ("input.yaml") ("out") 50 100).1.isSuccess = true ∧
    c1World.outcome = ProcOutcome.completed 1 ("") ("boom") := by
  constructor
  · decide
  · rfl

/-- Claim C1 (amended): when the external process invocation completes
(no timeout and no exception), `run_prediction` returns `Success` if and only
if a structure file is discovered in the output directory; the exit code is
not consulted. Any completed run without a discoverable structure file yields
`Failure`. -/
theorem c1_amended
    (w : World) (rc : Int) (so se y o : String) (s L : Nat)
    (h : w.outcome = ProcOutcome.completed rc so se) :
    ((runPrediction w y o s L).1.isSuccess = true) ↔ structureOf w o ≠ none := by
  simp only [runPrediction, h]
  cases hs : structureOf w o with
  | some st => simp [RunResult.isSuccess]
  | none => simp [RunResult.isSuccess]

/-- Witness for C1 (amended) at the counterexample world (return code 1). -/
theorem c1_witness :
    (runPrediction c1World ("input.yaml") ("out") 50 100).1.isSuccess = true :=
  (c1_amended c1World 1 ("") ("boom") ("input.yaml") ("out") 50 100 rfl).mpr (by decide)

/-- World for the C2 counterexample: the process hits the timeout. -/
def c2World : World :=
  { outcome := ProcOutcome.timedOut,
    fs := { globMatches := [], isDir := fun _ => false },
    cifs := fun _ => [],
    pdbs := fun _ => [],
    jsons := fun _ => [] }

/-- Counterexample to claim C2: on timeout `run_prediction` does return
`Failure` with the exact message and no partial results, but the log file is
NOT written (the claim asserts it is): `subprocess.run` raises
`TimeoutExpired` before the write at src/prediction.py line 235 is reached,
so the second component (the log file content) is `none`. -/
theorem c2_counterexample :
    (runPrediction c2World ("input.yaml") ("out") 50 10).2 = none ∧
    (runPrediction c2World ("input.yaml") ("out") 50 10).1
      = RunResult.failure ("Prediction timed out (>30 min).")
          (rawLogPrefix ("input.yaml") ("out") 50 10) := by
  exact ⟨rfl, rfl⟩

/-- Claim C2 (amended): if the process exceeds the 1800-second timeout,
`run_prediction` returns `Failure` with the exact message
`Prediction timed out (>30 min).` and no partial results, but the log file is
NOT written on this path; the log file (command line, return code, captured
stdout/stderr) is written only when the process invocation completes. -/
theorem c2_amended
    (w1 w2 : World) (rc : Int) (so se y o : String) (s L : Nat)
    (h1 : w1.outcome = ProcOutcome.timedOut)
    (h2 : w2.outcome = ProcOutcome.completed rc so se) :
    ((runPrediction w1 y o s L).1
        = RunResult.failure ("Prediction timed out (>30 min).") (rawLogPrefix y o s L) ∧
      (runPrediction w1 y o s L).2 = none) ∧
    (runPrediction w2 y o s L).2 = some (fullRawLog y o s L rc so se) := by
  refine ⟨⟨?_, ?_⟩, ?_⟩
  · simp only [runPrediction, h1]
  · simp only [runPrediction, h1]
  · simp only [runPrediction, h2]
    cases hs : structureOf w2 o with
    | some st => simp
    | none => simp

/-- World for the C2 witness: a completed run (exit 0, empty streams). -/
def c2WorldB : World :=
  { outcome := ProcOutcome.completed 0 ("ok") (""),
    fs := { globMatches := [], isDir := fun _ => false },
    cifs := fun _ => [],
    pdbs := fun _ => [],
    jsons := fun _ => [] }

/-- Witness for C2 (amended): the timed-out world writes no log; the completed
world writes the full raw log. -/
theorem c2_witness :
    (runPrediction c2World ("y.yaml") ("o") 50 10).2 = none ∧
    (runPrediction c2WorldB ("y.yaml") ("o") 50 10).2
      = some (fullRawLog ("y.yaml") ("o") 50 10 0 ("ok") ("")) := by
  have h := c2_amended c2World c2WorldB 0 ("ok") ("") ("y.yaml") ("o") 50 10 rfl rfl
  exact ⟨h.1.2, h.2⟩

/-- Witness for C10: a document holding both `affinity_pred_value` (3) and
`affinity` (9) yields canonical `affinity` = 3. -/
theorem c10_witness :
    collectMetrics [Except.ok [(("affinity_pred_value"), (3 : ℚ)), (("affinity"), (9 : ℚ))]]
        ("affinity") = some (3 : ℚ) :=
  (c10_affinity_pred_value_priority
    [(("affinity_pred_value"), (3 : ℚ)), (("affinity"), (9 : ℚ))] 3 9
    (by decide) (by decide)).2
